import Mathlib

set_option maxHeartbeats 1000000

/-!
Shallow embedding of the pocket-calculators retirement projection engine.

Monetary quantities are modelled over `ℚ` (the source uses Python floats;
the claims under verification concern the exact algebraic structure of the
computations).  Each Python calculator class becomes a structure holding the
constructor arguments, and its `calculate` method becomes a Lean function on
that structure.  Loops become structural recursions, and the one `raise`
statement in the source (the ETF rebalancing configuration check) becomes an
`Except` result.
-/

/-- The source stores `yearly_values` either as a list of `(year, value)`
pairs (the compounding kernel) or as a bare list of values (the
contribution-dynamics kernel); Python's dynamic typing allows both. -/
inductive YearlySeries where
  | indexed : List (ℕ × ℚ) → YearlySeries
  | plain : List ℚ → YearlySeries

/-- `InvestmentResult` dataclass from `base_calculator.py`. -/
structure InvestmentResult where
  name : String
  total_paid : ℚ
  total_value : ℚ
  net_return : ℚ
  tax_benefit : ℚ
  yearly_values : YearlySeries
  gross_paid : ℚ := 0
  state_allowances : ℚ := 0
  tax_savings : ℚ := 0
  total_costs : ℚ := 0
  gross_return : ℚ := 0
  gross_value : ℚ := 0

/-- Derived property `InvestmentResult.net_investment` from `base_calculator.py`. -/
def InvestmentResult.net_investment (r : InvestmentResult) : ℚ :=
  r.gross_paid - r.state_allowances - r.tax_savings

/-- Balance recurrence of `BaseCalculator._compound_interest`: each month,
`balance = balance * (1 + monthly_rate) + monthly_payment`.  `balIter m mr n b`
is the balance after `n` further months starting from balance `b`. -/
def balIter (m mr : ℚ) : ℕ → ℚ → ℚ
  | 0, bal => bal
  | n + 1, bal => balIter m mr n (bal * (1 + mr) + m)

/-- Month loop of `BaseCalculator._compound_interest`, carrying the month
counter and the year-end snapshot list exactly as the source does. -/
def compoundAux (m mr : ℚ) : ℕ → ℕ → ℚ → List (ℕ × ℚ) → ℚ × List (ℕ × ℚ)
  | 0, _, bal, ys => (bal, ys)
  | n + 1, month, bal, ys =>
    let bal2 := bal * (1 + mr) + m
    let month2 := month + 1
    if month2 % 12 = 0 then compoundAux m mr n month2 bal2 (ys ++ [(month2 / 12, bal2)])
    else compoundAux m mr n month2 bal2 ys

/-- `BaseCalculator._compound_interest(monthly_payment, annual_rate, years)`. -/
def compound_interest (monthly_payment annual_rate : ℚ) (years : ℕ) : ℚ × List (ℕ × ℚ) :=
  compoundAux monthly_payment (annual_rate / 12) (years * 12) 0 0 []

/-- Inner 12-month loop of `calculate_with_contribution_dynamics`
(`dynamics.py`): state is `(total_capital, total_contributions)`. -/
def dynMonths (mr c : ℚ) : ℕ → ℚ × ℚ → ℚ × ℚ
  | 0, s => s
  | n + 1, (cap, tot) => dynMonths mr c n (cap * (1 + mr) + c, tot + c)

/-- Year loop of `calculate_with_contribution_dynamics` (`dynamics.py`):
state is `(total_capital, yearly_values, total_contributions,
current_monthly_contribution)`; the contribution is raised by the dynamics
rate only after the 12 months of the year have been simulated. -/
def dynYears (mr rate : ℚ) : ℕ → ℚ × List ℚ × ℚ × ℚ → ℚ × List ℚ × ℚ × ℚ
  | 0, s => s
  | n + 1, (cap, ys, tot, c) =>
    let p := dynMonths mr c 12 (cap, tot)
    dynYears mr rate n (p.1, ys ++ [p.1], p.2, c * (1 + rate))

/-- `calculate_with_contribution_dynamics` from `dynamics.py`. -/
def calculate_with_contribution_dynamics (initial_monthly_contribution annual_dynamics_rate : ℚ)
    (years : ℕ) (annual_return : ℚ) (initial_investment : ℚ) : ℚ × List ℚ × ℚ :=
  let monthly_rate := annual_return / 12
  let s := dynYears monthly_rate annual_dynamics_rate years
    (initial_investment, [initial_investment], initial_investment, initial_monthly_contribution)
  (s.1, s.2.1, s.2.2.1)

/-- Constructor arguments / fields of `ETFCalculator` (`etf_calculator.py`). -/
structure ETFCalculator where
  monthly_contribution : ℚ
  years : ℕ
  annual_return : ℚ := 7 / 100
  tax_rate : ℚ := 42 / 100
  ter : ℚ := 1 / 500
  capital_gains_tax : ℚ := 26375 / 100000
  tax_allowance : ℚ := 1000
  order_fee : ℚ := 1
  depot_fee_yearly : ℚ := 0
  spread : ℚ := 1 / 500
  initial_investment : ℚ := 0
  rebalancing_count : ℕ := 0
  contribution_dynamics : ℚ := 0
  inflation_rate : ℚ := 1 / 50

/-- Shared tail of `ETFCalculator.calculate` (lines 105-161 of
`etf_calculator.py`): order/depot fees, terminal capital-gains taxation with
the single sale-year allowance, and counterfactual cost computation. -/
def etfFinish (self : ETFCalculator) (final_value0 : ℚ) (ys : YearlySeries) (total_paid : ℚ) :
    InvestmentResult :=
  let total_order_fees :=
    self.order_fee * 12 * (self.years : ℚ) +
      (if self.initial_investment > 0 then self.order_fee else 0)
  let total_depot_fees := self.depot_fee_yearly * (self.years : ℚ)
  let final_value := final_value0 - total_order_fees - total_depot_fees
  let capital_gain := final_value - total_paid
  let total_tax_allowance := self.tax_allowance
  let taxable_gain := max 0 (capital_gain - total_tax_allowance)
  let tax_on_gains := taxable_gain * self.capital_gains_tax
  let final_value_after_tax := final_value - tax_on_gains
  let gross_return_no_costs := self.annual_return
  let final_without_costs0 :=
    (compound_interest self.monthly_contribution gross_return_no_costs self.years).1
  let final_without_costs :=
    if self.initial_investment > 0 then
      final_without_costs0 + self.initial_investment * (1 + gross_return_no_costs) ^ self.years
    else final_without_costs0
  let total_costs := final_without_costs - final_value
  { name := "ETF-Sparplan (privat)"
    total_paid := total_paid
    total_value := final_value_after_tax
    net_return := self.annual_return - self.ter - self.spread
    tax_benefit := 0
    yearly_values := ys
    gross_paid := total_paid
    state_allowances := 0
    tax_savings := 0
    total_costs := total_costs
    gross_return := self.annual_return
    gross_value := final_value }

/-- Error message of the `raise ValueError` in
`ETFCalculator._calculate_with_rebalancing`. -/
def rebalancing_error_msg : String :=
  "Anzahl Umschichtungen darf nicht >= Laufzeit in Jahren sein"

/-- Evenly spaced rebalancing event years:
`interval = years/(count+1)`, event years `int(interval * i)` for
`i = 1..count` (exact-arithmetic rendering of the float truncation). -/
def rebalancingYears (years count : ℕ) : List ℕ :=
  if 0 < count then (List.range count).map (fun i => years * (i + 1) / (count + 1)) else []

/-- Simulation state of `ETFCalculator._calculate_with_rebalancing`. -/
structure RebState where
  balance : ℚ
  invested : ℚ
  ys : List (ℕ × ℚ)
  order_fees : ℚ
  depot_fees : ℚ
  reb_taxes : ℚ
  reb_costs : ℚ
  allowance : ℚ

/-- Monthly contribution loop inside the rebalancing year simulation: state
is `(balance, invested_capital, total_order_fees)`. -/
def rebMonthLoop (mr m fee : ℚ) : ℕ → ℚ × ℚ × ℚ → ℚ × ℚ × ℚ
  | 0, s => s
  | n + 1, (b, inv, f) => rebMonthLoop mr m fee n (b * (1 + mr) + m, inv + m, f + fee)

/-- One year of `ETFCalculator._calculate_with_rebalancing`: reset the
allowance, simulate 12 months, add the depot fee, and perform a
liquidation/reinvestment event if this is a rebalancing year. -/
def rebYearStep (self : ETFCalculator) (net : ℚ) (reb_years : List ℕ) (year : ℕ)
    (st : RebState) : RebState :=
  let remaining_tax_allowance := self.tax_allowance
  let q := rebMonthLoop (net / 12) self.monthly_contribution self.order_fee 12
    (st.balance, st.invested, st.order_fees)
  let b := q.1
  let inv := q.2.1
  let ofees := q.2.2
  let dfees := st.depot_fees + self.depot_fee_yearly
  if year ∈ reb_years then
    let current_gain := b - inv
    let taxable_gain := max 0 (current_gain - remaining_tax_allowance)
    let taxes := taxable_gain * self.capital_gains_tax
    let used_allowance := min current_gain remaining_tax_allowance
    let ra2 := remaining_tax_allowance - used_allowance
    let sell_spread_cost := b * self.spread
    let b2 := b - taxes - sell_spread_cost
    let buy_spread_cost := b2 * self.spread
    let b3 := b2 - buy_spread_cost
    { balance := b3
      invested := inv
      ys := st.ys ++ [(year, b3)]
      order_fees := ofees + self.order_fee
      depot_fees := dfees
      reb_taxes := st.reb_taxes + taxes
      reb_costs := st.reb_costs + sell_spread_cost + buy_spread_cost + self.order_fee
      allowance := ra2 }
  else
    { balance := b
      invested := inv
      ys := st.ys ++ [(year, b)]
      order_fees := ofees
      depot_fees := dfees
      reb_taxes := st.reb_taxes
      reb_costs := st.reb_costs
      allowance := remaining_tax_allowance }

/-- Year loop of `ETFCalculator._calculate_with_rebalancing`. -/
def rebLoop (self : ETFCalculator) (net : ℚ) (reb_years : List ℕ) : ℕ → ℕ → RebState → RebState
  | 0, _, st => st
  | n + 1, year, st => rebLoop self net reb_years n (year + 1) (rebYearStep self net reb_years year st)

/-- Tax allowance available at the terminal sale in the rebalancing variant
(lines 253-255 of `etf_calculator.py`): if the final year was not a
rebalancing year, the full yearly allowance is available. -/
def etfTerminalAllowance (self : ETFCalculator) (loop_allowance : ℚ) : ℚ :=
  if self.years ∈ rebalancingYears self.years self.rebalancing_count then loop_allowance
  else self.tax_allowance

/-- `ETFCalculator._calculate_with_rebalancing`. -/
def etfWithRebalancing (self : ETFCalculator) (net_annual_return total_paid : ℚ) :
    Except String InvestmentResult :=
  if self.years ≤ self.rebalancing_count then Except.error rebalancing_error_msg
  else
    let rebalancing_years := rebalancingYears self.years self.rebalancing_count
    let st0 : RebState :=
      if self.initial_investment > 0 then
        { balance := self.initial_investment * (1 - self.spread)
          invested := self.initial_investment
          ys := [], order_fees := 0, depot_fees := 0, reb_taxes := 0, reb_costs := 0, allowance := 0 }
      else
        { balance := 0, invested := 0, ys := [], order_fees := 0, depot_fees := 0,
          reb_taxes := 0, reb_costs := 0, allowance := 0 }
    let st := rebLoop self net_annual_return rebalancing_years self.years 1 st0
    let final_value := st.balance - st.depot_fees - st.order_fees
    let final_capital_gain := final_value - st.invested
    let remaining_tax_allowance := etfTerminalAllowance self st.allowance
    let final_taxable_gain := max 0 (final_capital_gain - remaining_tax_allowance)
    let final_tax := final_taxable_gain * self.capital_gains_tax
    let final_value_after_tax := final_value - final_tax
    let gross_return_no_costs := self.annual_return
    let final_without_costs0 :=
      (compound_interest self.monthly_contribution gross_return_no_costs self.years).1
    let final_without_costs :=
      if self.initial_investment > 0 then
        final_without_costs0 + self.initial_investment * (1 + gross_return_no_costs) ^ self.years
      else final_without_costs0
    let total_costs := (final_without_costs - final_value_after_tax) - final_tax
    Except.ok
      { name := "ETF-Sparplan (privat)"
        total_paid := total_paid
        total_value := final_value_after_tax
        net_return := net_annual_return
        tax_benefit := 0
        yearly_values := YearlySeries.indexed st.ys
        gross_paid := total_paid
        state_allowances := 0
        tax_savings := 0
        total_costs := total_costs
        gross_return := self.annual_return
        gross_value := final_value }

/-- `ETFCalculator.calculate` (`etf_calculator.py`). -/
def ETFCalculator.calculate (self : ETFCalculator) : Except String InvestmentResult :=
  let net_annual_return := self.annual_return - self.ter - self.spread
  if self.contribution_dynamics > 0 then
    let t := calculate_with_contribution_dynamics self.monthly_contribution
      self.contribution_dynamics self.years net_annual_return self.initial_investment
    Except.ok (etfFinish self t.1 (YearlySeries.plain t.2.1) t.2.2)
  else
    let total_paid := self.monthly_contribution * 12 * (self.years : ℚ) + self.initial_investment
    if self.rebalancing_count > 0 then
      etfWithRebalancing self net_annual_return total_paid
    else
      let p := compound_interest self.monthly_contribution net_annual_return self.years
      let final_value :=
        if self.initial_investment > 0 then
          p.1 + self.initial_investment * (1 - self.spread) * (1 + net_annual_return) ^ self.years
        else p.1
      Except.ok (etfFinish self final_value (YearlySeries.indexed p.2) total_paid)

/-- Constructor arguments / fields of `RiesterCalculator`
(`riester_calculator.py`); `lump_sum_percentage` is stored already divided
by 100 and capped at 30%. -/
structure RiesterCalculator where
  monthly_contribution : ℚ
  years : ℕ
  annual_return : ℚ := 3 / 100
  tax_rate : ℚ := 42 / 100
  tax_rate_retirement : ℚ := 30 / 100
  basic_allowance : ℚ := 175
  children_allowance : ℚ := 0
  effective_costs : ℚ := 2 / 100
  max_deductible : ℚ := 2100
  lump_sum_percentage : ℚ := 0

/-- `RiesterCalculator.calculate` (`riester_calculator.py`). -/
def RiesterCalculator.calculate (self : RiesterCalculator) : InvestmentResult :=
  let net0 := self.annual_return - self.effective_costs
  let net_annual_return := if net0 < 0 then 1 / 1000 else net0
  let yearly_contribution := self.monthly_contribution * 12
  let yearly_allowance := self.basic_allowance + self.children_allowance
  let deductible_amount := min yearly_contribution self.max_deductible
  let yearly_tax_benefit := deductible_amount * self.tax_rate
  let additional_tax_benefit := max 0 (yearly_tax_benefit - yearly_allowance)
  let monthly_contribution_with_allowance := (yearly_contribution + yearly_allowance) / 12
  let p := compound_interest monthly_contribution_with_allowance net_annual_return self.years
  let final_value_gross := p.1
  let gross_paid := yearly_contribution * (self.years : ℚ)
  let total_allowances := yearly_allowance * (self.years : ℚ)
  let total_additional_tax := additional_tax_benefit * (self.years : ℚ)
  let final_without_costs :=
    (compound_interest monthly_contribution_with_allowance self.annual_return self.years).1
  let total_costs := final_without_costs - final_value_gross
  let tax_on_payout := final_value_gross * self.tax_rate_retirement
  let final_value_after_tax := final_value_gross - tax_on_payout + total_additional_tax
  let total_tax_benefit := total_allowances + total_additional_tax
  let net_investment_amount := gross_paid - total_additional_tax
  { name := "Riester-Rente"
    total_paid := net_investment_amount
    total_value := final_value_after_tax
    net_return := net_annual_return
    tax_benefit := total_tax_benefit
    yearly_values := YearlySeries.indexed p.2
    gross_paid := gross_paid
    state_allowances := total_allowances
    tax_savings := total_additional_tax
    total_costs := total_costs
    gross_return := self.annual_return
    gross_value := final_value_gross }

/-- Constructor arguments / fields of `BasisrenteCalculator`
(`basisrente_calculator.py`). -/
structure BasisrenteCalculator where
  monthly_contribution : ℚ
  years : ℕ
  annual_return : ℚ := 7 / 100
  tax_rate : ℚ := 42 / 100
  deductible_percentage : ℚ := 1
  tax_rate_retirement : ℚ := 30 / 100
  effective_costs : ℚ := 15 / 1000
  honorar_fee : ℚ := 0
  initial_investment : ℚ := 0
  contribution_dynamics : ℚ := 0
  inflation_rate : ℚ := 1 / 50

/-- Shared tail of `BasisrenteCalculator.calculate` (lines 90-139 of
`basisrente_calculator.py`). -/
def basisrenteFinish (self : BasisrenteCalculator) (final_value_gross : ℚ) (ys : YearlySeries)
    (contract_contributions : ℚ) : InvestmentResult :=
  let tax_savings := contract_contributions * self.deductible_percentage * self.tax_rate
  let gross_paid := contract_contributions
  let final_without_costs0 :=
    (compound_interest self.monthly_contribution self.annual_return self.years).1
  let final_without_costs :=
    if self.initial_investment > 0 then
      final_without_costs0 + self.initial_investment * (1 + self.annual_return) ^ self.years
    else final_without_costs0
  let total_costs := final_without_costs - final_value_gross + self.honorar_fee
  let tax_on_payout := final_value_gross * self.tax_rate_retirement
  let final_value_after_tax := final_value_gross - tax_on_payout + tax_savings
  let net_investment_amount := contract_contributions - tax_savings
  { name := "Basisrente (Rürup)"
    total_paid := net_investment_amount
    total_value := final_value_after_tax
    net_return := self.annual_return - self.effective_costs
    tax_benefit := tax_savings
    yearly_values := ys
    gross_paid := gross_paid
    state_allowances := 0
    tax_savings := tax_savings
    total_costs := total_costs
    gross_return := self.annual_return
    gross_value := final_value_gross }

/-- `BasisrenteCalculator.calculate` (`basisrente_calculator.py`). -/
def BasisrenteCalculator.calculate (self : BasisrenteCalculator) : InvestmentResult :=
  let net_annual_return := self.annual_return - self.effective_costs
  if self.contribution_dynamics > 0 then
    let t := calculate_with_contribution_dynamics self.monthly_contribution
      self.contribution_dynamics self.years net_annual_return self.initial_investment
    basisrenteFinish self t.1 (YearlySeries.plain t.2.1) t.2.2
  else
    let p := compound_interest self.monthly_contribution net_annual_return self.years
    let final_value_gross :=
      if self.initial_investment > 0 then
        p.1 + self.initial_investment * (1 + net_annual_return) ^ self.years
      else p.1
    let contract_contributions :=
      self.monthly_contribution * 12 * (self.years : ℚ) + self.initial_investment
    basisrenteFinish self final_value_gross (YearlySeries.indexed p.2) contract_contributions

/-- `ERTRAGSANTEIL_TABLE` from `privatrente_calculator.py` (§ 22 EStG). -/
def ERTRAGSANTEIL_TABLE : List (ℤ × ℚ) :=
  [(50, 30), (51, 29), (52, 28), (53, 27), (54, 27),
   (55, 26), (56, 25), (57, 25), (58, 24), (59, 23),
   (60, 22), (61, 22), (62, 21), (63, 20), (64, 19),
   (65, 18), (66, 18), (67, 17), (68, 16), (69, 16),
   (70, 15)]

/-- Constructor arguments / fields of `PrivatrenteCalculator`
(`privatrente_calculator.py`). -/
structure PrivatrenteCalculator where
  monthly_contribution : ℚ
  years : ℕ
  annual_return : ℚ := 5 / 100
  tax_rate : ℚ := 42 / 100
  tax_rate_retirement : ℚ := 30 / 100
  effective_costs : ℚ := 18 / 1000
  honorar_fee : ℚ := 0
  initial_investment : ℚ := 0
  payout_option : String := "annuity"
  retirement_age : ℤ := 67

/-- `PrivatrenteCalculator._get_ertragsanteil`: table lookup clamped to the
endpoints, defaulting to 18 for an unlisted in-range age. -/
def PrivatrenteCalculator.get_ertragsanteil (age : ℤ) : ℚ :=
  if age < 50 then 30
  else if age > 70 then 15
  else ((ERTRAGSANTEIL_TABLE.lookup age).getD 18)

/-- `PrivatrenteCalculator.calculate` (`privatrente_calculator.py`). -/
def PrivatrenteCalculator.calculate (self : PrivatrenteCalculator) : InvestmentResult :=
  let net_annual_return := self.annual_return - self.effective_costs
  let p := compound_interest self.monthly_contribution net_annual_return self.years
  let final_value_gross :=
    if self.initial_investment > 0 then
      p.1 + self.initial_investment * (1 + net_annual_return) ^ self.years
    else p.1
  let contract_contributions :=
    self.monthly_contribution * 12 * (self.years : ℚ) + self.initial_investment
  let gross_paid := contract_contributions
  let final_without_costs0 :=
    (compound_interest self.monthly_contribution self.annual_return self.years).1
  let final_without_costs :=
    if self.initial_investment > 0 then
      final_without_costs0 + self.initial_investment * (1 + self.annual_return) ^ self.years
    else final_without_costs0
  let total_costs := final_without_costs - final_value_gross + self.honorar_fee
  let capital_gain := final_value_gross - contract_contributions
  let tax_on_payout :=
    if self.payout_option = "lump_sum" then
      let taxable_gain := capital_gain * (1 / 2)
      taxable_gain * self.tax_rate_retirement
    else
      let ertragsanteil_percentage := PrivatrenteCalculator.get_ertragsanteil self.retirement_age
      final_value_gross * (ertragsanteil_percentage / 100) * self.tax_rate_retirement
  let final_value_after_tax := final_value_gross - tax_on_payout
  let net_investment_amount := contract_contributions
  { name := "Privatrente"
    total_paid := net_investment_amount
    total_value := final_value_after_tax
    net_return := net_annual_return
    tax_benefit := 0
    yearly_values := YearlySeries.indexed p.2
    gross_paid := gross_paid
    state_allowances := 0
    tax_savings := 0
    total_costs := total_costs
    gross_return := self.annual_return
    gross_value := final_value_gross }

/-- `WithdrawalResult` dataclass from `withdrawal_strategy.py`. -/
structure WithdrawalResult where
  strategy_name : String
  initial_capital : ℚ
  total_withdrawals : ℚ
  remaining_capital : ℚ
  yearly_withdrawals : List (ℕ × ℚ × ℚ)
  avg_monthly_withdrawal : ℚ
  capital_depleted_year : ℕ
  success_rate : ℚ

/-- Year loop of `four_percent_rule`: state is
`(current_capital, annual_withdrawal, total_withdrawals,
capital_depleted_year, yearly_withdrawals)`. -/
def fprAux (ret infl : ℚ) (adj : Bool) : ℕ → ℕ → ℚ × ℚ × ℚ × ℕ × List (ℕ × ℚ × ℚ) →
    ℚ × ℚ × ℚ × ℕ × List (ℕ × ℚ × ℚ)
  | 0, _, s => s
  | n + 1, year, (cap, aw, tot, dep, ys) =>
    let aw2 := if adj = true ∧ 1 < year then aw * (1 + infl) else aw
    if cap ≤ 0 then
      let dep2 := if dep = 0 then year - 1 else dep
      fprAux ret infl adj n (year + 1) (cap, aw2, tot, dep2, ys ++ [(year, 0, 0)])
    else
      let w := min aw2 cap
      let cap2 := (cap - w) * (1 + ret)
      fprAux ret infl adj n (year + 1) (cap2, aw2, tot + w, dep, ys ++ [(year, w, cap2)])

/-- `four_percent_rule` from `withdrawal_strategy.py`. -/
def four_percent_rule (initial_capital : ℚ) (withdrawal_years : ℕ)
    (annual_return : ℚ := 4 / 100) (annual_inflation : ℚ := 1 / 50)
    (with_inflation_adjustment : Bool := true) : WithdrawalResult :=
  let s := fprAux annual_return annual_inflation with_inflation_adjustment withdrawal_years 1
    (initial_capital, initial_capital * (4 / 100), 0, 0, [])
  let cap := s.1
  let tot := s.2.2.1
  let dep := s.2.2.2.1
  let ys := s.2.2.2.2
  let success_rate := if dep = 0 then 1 else (dep : ℚ) / (withdrawal_years : ℚ)
  { strategy_name := "4%-Regel (Trinity Study)"
    initial_capital := initial_capital
    total_withdrawals := tot
    remaining_capital := max 0 cap
    yearly_withdrawals := ys
    avg_monthly_withdrawal := tot / (withdrawal_years : ℚ) / 12
    capital_depleted_year := dep
    success_rate := success_rate }

/-- Year loop of `dynamic_percentage_withdrawal`: state is
`(current_capital, total_withdrawals, yearly_withdrawals)`. -/
def dpwAux (percentage ret : ℚ) : ℕ → ℕ → ℚ × ℚ × List (ℕ × ℚ × ℚ) →
    ℚ × ℚ × List (ℕ × ℚ × ℚ)
  | 0, _, s => s
  | n + 1, year, (cap, tot, ys) =>
    let w := cap * percentage
    let cap2 := (cap - w) * (1 + ret)
    dpwAux percentage ret n (year + 1) (cap2, tot + w, ys ++ [(year, w, cap2)])

/-- `dynamic_percentage_withdrawal` from `withdrawal_strategy.py`. -/
def dynamic_percentage_withdrawal (initial_capital withdrawal_percentage : ℚ)
    (withdrawal_years : ℕ) (annual_return : ℚ := 4 / 100) : WithdrawalResult :=
  let s := dpwAux withdrawal_percentage annual_return withdrawal_years 1 (initial_capital, 0, [])
  let cap := s.1
  let tot := s.2.1
  let ys := s.2.2
  { strategy_name := "Dynamische Entnahme"
    initial_capital := initial_capital
    total_withdrawals := tot
    remaining_capital := cap
    yearly_withdrawals := ys
    avg_monthly_withdrawal := tot / (withdrawal_years : ℚ) / 12
    capital_depleted_year := 0
    success_rate := 1 }

/-- Month loop of `fixed_monthly_pension`: state is
`(current_capital, year_withdrawal, capital_depleted_year)`; an exhausted
capital breaks out of the month loop after recording the depletion year. -/
def fmpMonthLoop (mr pension : ℚ) (year : ℕ) : ℕ → ℚ × ℚ × ℕ → ℚ × ℚ × ℕ
  | 0, s => s
  | n + 1, (cap, yw, dep) =>
    if cap ≤ 0 then (cap, yw, if dep = 0 then year else dep)
    else
      let w := min pension cap
      let cap2 := (cap - w) * (1 + mr)
      fmpMonthLoop mr pension year n (cap2, yw + w, dep)

/-- Year loop of `fixed_monthly_pension`: state is
`(current_capital, total_withdrawals, capital_depleted_year,
yearly_withdrawals)`; the loop breaks once capital is exhausted. -/
def fmpYearLoop (mr pension : ℚ) : ℕ → ℕ → ℚ × ℚ × ℕ × List (ℕ × ℚ × ℚ) →
    ℚ × ℚ × ℕ × List (ℕ × ℚ × ℚ)
  | 0, _, s => s
  | n + 1, year, (cap, tot, dep, ys) =>
    let q := fmpMonthLoop mr pension year 12 (cap, 0, dep)
    let cap2 := q.1
    let yw := q.2.1
    let dep2 := q.2.2
    let tot2 := tot + yw
    let ys2 := ys ++ [(year, yw, cap2)]
    if cap2 ≤ 0 then (cap2, tot2, dep2, ys2)
    else fmpYearLoop mr pension n (year + 1) (cap2, tot2, dep2, ys2)

/-- `fixed_monthly_pension` from `withdrawal_strategy.py`. -/
def fixed_monthly_pension (initial_capital monthly_pension : ℚ) (withdrawal_years : ℕ)
    (annual_return : ℚ := 4 / 100) : WithdrawalResult :=
  let s := fmpYearLoop (annual_return / 12) monthly_pension withdrawal_years 1
    (initial_capital, 0, 0, [])
  let cap := s.1
  let tot := s.2.1
  let dep := s.2.2.1
  let ys := s.2.2.2
  let success_rate := if dep = 0 then 1 else (dep : ℚ) / (withdrawal_years : ℚ)
  { strategy_name := "Feste Rente"
    initial_capital := initial_capital
    total_withdrawals := tot
    remaining_capital := max 0 cap
    yearly_withdrawals := ys
    avg_monthly_withdrawal := monthly_pension
    capital_depleted_year := dep
    success_rate := success_rate }

/-! Concrete configurations used to instantiate the claims. -/

/-- ETF configuration with the source defaults (scenario 1 of the spec). -/
def cfgC1 : ETFCalculator := { monthly_contribution := 100, years := 10 }

/-- Riester configuration whose cost drag exactly cancels the return. -/
def cfgC2 : RiesterCalculator :=
  { monthly_contribution := 100, years := 1, annual_return := 1 / 50, effective_costs := 1 / 50 }

/-- Riester configuration with a strictly negative cost-adjusted return. -/
def cfgC2b : RiesterCalculator :=
  { monthly_contribution := 100, years := 1, annual_return := 1 / 100, effective_costs := 1 / 50 }

/-- Degenerate ETF configuration (no contributions, zero horizon). -/
def cfgC3 : ETFCalculator := { monthly_contribution := 0, years := 0 }

/-- Riester configuration with a nonzero basic allowance and zero tax rate. -/
def cfgC3r : RiesterCalculator :=
  { monthly_contribution := 100, years := 1, tax_rate := 0 }

/-- ETF configuration with contribution dynamics enabled and more rebalancing
events than years. -/
def cfgC4 : ETFCalculator :=
  { monthly_contribution := 0, years := 1, annual_return := 0, ter := 0, spread := 0,
    order_fee := 0, rebalancing_count := 2, contribution_dynamics := 1 / 50 }

/-- ETF configuration with static contributions and rebalancing count equal
to the horizon. -/
def cfgC4w : ETFCalculator :=
  { monthly_contribution := 100, years := 1, rebalancing_count := 1 }

/-- Riester configuration deep in the floored-rate region. -/
def cfgC5a : RiesterCalculator :=
  { monthly_contribution := 100, years := 1, annual_return := 0, effective_costs := 1 / 20,
    basic_allowance := 0, children_allowance := 0 }

/-- ETF configuration for the monotonicity witness. -/
def cfgC5etf : ETFCalculator :=
  { monthly_contribution := 1, years := 1, annual_return := 0, ter := 0, spread := 0 }

/-- Basisrente configuration for the monotonicity witness. -/
def cfgC5bas : BasisrenteCalculator :=
  { monthly_contribution := 1, years := 1, annual_return := 0, effective_costs := 0 }

/-- Riester configuration for the monotonicity witness. -/
def cfgC5rie : RiesterCalculator :=
  { monthly_contribution := 100, years := 1, annual_return := 2 / 100, effective_costs := 1 / 100 }

/-- Privatrente configuration for the monotonicity witness. -/
def cfgC5priv : PrivatrenteCalculator :=
  { monthly_contribution := 1, years := 1, annual_return := 0, effective_costs := 0 }

/-- Privatrente lump-sum configuration whose terminal balance is below the
contributions, with a zero retirement tax rate. -/
def cfgC9 : PrivatrenteCalculator :=
  { monthly_contribution := 0, years := 1, annual_return := 0, effective_costs := 1 / 2,
    initial_investment := 100, payout_option := "lump_sum", tax_rate_retirement := 0 }

/-- Privatrente lump-sum configuration with negative gain and a positive
retirement tax rate. -/
def cfgC9w : PrivatrenteCalculator :=
  { monthly_contribution := 0, years := 1, annual_return := 0, effective_costs := 1 / 2,
    initial_investment := 100, payout_option := "lump_sum", tax_rate_retirement := 3 / 10 }

/-- ETF configuration with two rebalancing events over five years. -/
def cfgC10 : ETFCalculator :=
  { monthly_contribution := 0, years := 5, rebalancing_count := 2 }

/-! Helper lemmas about the compounding kernel. -/

/-- The final balance of the compounding month loop ignores the month counter
and the snapshot list. -/
lemma compoundAux_fst (m mr : ℚ) :
    ∀ (n month : ℕ) (bal : ℚ) (ys : List (ℕ × ℚ)),
      (compoundAux m mr n month bal ys).1 = balIter m mr n bal := by
  intro n
  induction n with
  | zero => intro month bal ys; rfl
  | succ k ih =>
    intro month bal ys
    simp only [compoundAux, balIter]
    split
    · exact ih _ _ _
    · exact ih _ _ _

/-- The final balance of `_compound_interest` as a pure iteration. -/
lemma compound_interest_fst (m q : ℚ) (y : ℕ) :
    (compound_interest m q y).1 = balIter m (q / 12) (y * 12) 0 :=
  compoundAux_fst m (q / 12) (y * 12) 0 0 []

lemma balIter_nonneg (m mr : ℚ) (hm : 0 ≤ m) (hmr : 0 ≤ mr) :
    ∀ (n : ℕ) (bal : ℚ), 0 ≤ bal → 0 ≤ balIter m mr n bal := by
  intro n
  induction n with
  | zero => intro bal h; exact h
  | succ k ih =>
    intro bal h
    exact ih _ (add_nonneg (mul_nonneg h (by linarith)) hm)

lemma balIter_le (m : ℚ) (hm : 0 ≤ m) {mrA mrB : ℚ} (h0 : 0 ≤ mrA) (hAB : mrA ≤ mrB) :
    ∀ (n : ℕ) {balA balB : ℚ}, 0 ≤ balA → balA ≤ balB →
      balIter m mrA n balA ≤ balIter m mrB n balB := by
  intro n
  induction n with
  | zero => intro _ _ _ h; exact h
  | succ k ih =>
    intro balA balB hA hle
    refine ih (add_nonneg (mul_nonneg hA (by linarith)) hm) ?_
    have h1 : balA * (1 + mrA) ≤ balB * (1 + mrB) :=
      mul_le_mul hle (by linarith) (by linarith) (le_trans hA hle)
    linarith

lemma balIter_lt (m : ℚ) (hm : 0 ≤ m) {mrA mrB : ℚ} (h0 : 0 ≤ mrA) (hAB : mrA ≤ mrB) :
    ∀ (n : ℕ) {balA balB : ℚ}, 0 ≤ balA → balA < balB →
      balIter m mrA n balA < balIter m mrB n balB := by
  intro n
  induction n with
  | zero => intro _ _ _ h; exact h
  | succ k ih =>
    intro balA balB hA hlt
    refine ih (add_nonneg (mul_nonneg hA (by linarith)) hm) ?_
    have h1 : balA * (1 + mrA) ≤ balA * (1 + mrB) :=
      mul_le_mul_of_nonneg_left (by linarith) hA
    have h2 : balA * (1 + mrB) < balB * (1 + mrB) :=
      mul_lt_mul_of_pos_right hlt (by linarith)
    linarith

/-- Strict monotonicity of the compounded final balance in the monthly rate,
for a positive monthly payment and at least two months. -/
lemma balIter_strict (m : ℚ) (hm : 0 < m) {mrA mrB : ℚ} (h0 : 0 ≤ mrA) (hAB : mrA < mrB) :
    ∀ (n : ℕ), 2 ≤ n → balIter m mrA n 0 < balIter m mrB n 0 := by
  intro n hn
  obtain ⟨k, rfl⟩ : ∃ k, n = k + 2 := ⟨n - 2, by omega⟩
  have e : ∀ mr : ℚ, balIter m mr (k + 2) 0 = balIter m mr k (m * (1 + mr) + m) := by
    intro mr
    have e1 : balIter m mr (k + 2) 0 = balIter m mr (k + 1) (0 * (1 + mr) + m) := rfl
    rw [e1, zero_mul, zero_add]
    rfl
  rw [e mrA, e mrB]
  refine balIter_lt m hm.le h0 hAB.le k ?_ ?_
  · nlinarith
  · nlinarith

/-- Strict monotonicity of `_compound_interest` in the annual rate. -/
lemma compound_interest_lt (m : ℚ) (hm : 0 < m) {qA qB : ℚ} (h0 : 0 ≤ qA) (hAB : qA < qB)
    {y : ℕ} (hy : 1 ≤ y) :
    (compound_interest m qA y).1 < (compound_interest m qB y).1 := by
  rw [compound_interest_fst, compound_interest_fst]
  refine balIter_strict m hm (by positivity) (by linarith) (y * 12) (by omega)

/-- Monotonicity of the lump-sum growth factor in the rate. -/
lemma initTerm_le {a b coef : ℚ} (hcoef : 0 ≤ coef) (h0 : 0 ≤ 1 + a) (hab : a ≤ b) (y : ℕ) :
    coef * (1 + a) ^ y ≤ coef * (1 + b) ^ y :=
  mul_le_mul_of_nonneg_left (pow_le_pow_left₀ h0 (by linarith) y) hcoef

/-! Branch-evaluation lemmas for the calculators. -/

/-- With static contributions and no rebalancing, `ETFCalculator.calculate`
takes the plain compounding path. -/
lemma etf_plain_eq (c : ETFCalculator) (h1 : c.contribution_dynamics = 0)
    (h2 : c.rebalancing_count = 0) :
    ETFCalculator.calculate c = Except.ok (etfFinish c
      (if c.initial_investment > 0 then
        (compound_interest c.monthly_contribution (c.annual_return - c.ter - c.spread) c.years).1
          + c.initial_investment * (1 - c.spread)
            * (1 + (c.annual_return - c.ter - c.spread)) ^ c.years
      else
        (compound_interest c.monthly_contribution (c.annual_return - c.ter - c.spread) c.years).1)
      (YearlySeries.indexed
        (compound_interest c.monthly_contribution (c.annual_return - c.ter - c.spread) c.years).2)
      (c.monthly_contribution * 12 * (c.years : ℚ) + c.initial_investment)) := by
  simp only [ETFCalculator.calculate, h1, h2, lt_self_iff_false, if_false, gt_iff_lt]

/-- With contribution dynamics enabled, `ETFCalculator.calculate` delegates
unconditionally to the dynamics kernel and cannot fail. -/
lemma etf_dynamics_eq (c : ETFCalculator) (h : 0 < c.contribution_dynamics) :
    ETFCalculator.calculate c = Except.ok (etfFinish c
      (calculate_with_contribution_dynamics c.monthly_contribution c.contribution_dynamics
        c.years (c.annual_return - c.ter - c.spread) c.initial_investment).1
      (YearlySeries.plain
        (calculate_with_contribution_dynamics c.monthly_contribution c.contribution_dynamics
          c.years (c.annual_return - c.ter - c.spread) c.initial_investment).2.1)
      (calculate_with_contribution_dynamics c.monthly_contribution c.contribution_dynamics
        c.years (c.annual_return - c.ter - c.spread) c.initial_investment).2.2) := by
  simp only [ETFCalculator.calculate, gt_iff_lt, if_pos h]

/-- When the cost drag makes the net return strictly negative, the Riester
calculator floors the rate at `0.001` both for reporting and compounding. -/
lemma riester_floor_eval (c : RiesterCalculator)
    (h : c.annual_return - c.effective_costs < 0) :
    (RiesterCalculator.calculate c).net_return = 1 / 1000 ∧
      (RiesterCalculator.calculate c).gross_value =
        (compound_interest
          ((c.monthly_contribution * 12 + (c.basic_allowance + c.children_allowance)) / 12)
          (1 / 1000) c.years).1 := by
  simp only [RiesterCalculator.calculate, if_pos h]
  exact ⟨trivial, trivial⟩

/-! Claim theorems. -/

/-- Claim C1: for the ETF calculator with `contribution_dynamics = 0` and
`rebalancing_count = 0`, the reported `total_value` equals `gross_value`
minus `capital_gains_tax * max 0 ((gross_value - total_paid) -
tax_allowance)`, the yearly allowance being applied exactly once; the
taxable gain is never negative. -/
theorem etf_total_value_tax_formula (c : ETFCalculator)
    (h1 : c.contribution_dynamics = 0) (h2 : c.rebalancing_count = 0) :
    ∃ r : InvestmentResult, ETFCalculator.calculate c = Except.ok r ∧
      r.total_value = r.gross_value
        - c.capital_gains_tax * max 0 (r.gross_value - r.total_paid - c.tax_allowance) ∧
      0 ≤ max 0 (r.gross_value - r.total_paid - c.tax_allowance) := by
  refine ⟨_, etf_plain_eq c h1 h2, ?_, le_max_left _ _⟩
  simp only [etfFinish]
  ring

/-- Witness for C1 at a concrete configuration. -/
theorem etf_total_value_tax_formula_witness :
    ∃ r : InvestmentResult, ETFCalculator.calculate cfgC1 = Except.ok r ∧
      r.total_value = r.gross_value
        - cfgC1.capital_gains_tax * max 0 (r.gross_value - r.total_paid - cfgC1.tax_allowance) ∧
      0 ≤ max 0 (r.gross_value - r.total_paid - cfgC1.tax_allowance) :=
  etf_total_value_tax_formula cfgC1 rfl rfl

/-- Claim C2 is false as stated: with `annual_return - effective_costs`
equal to zero (non-positive), the Riester calculator does not floor the net
return at `0.001`; the floor only fires for strictly negative values. -/
theorem riester_floor_boundary_cex :
    cfgC2.annual_return - cfgC2.effective_costs ≤ 0 ∧
      (RiesterCalculator.calculate cfgC2).net_return ≠ 1 / 1000 := by
  constructor
  · norm_num [cfgC2]
  · with_unfolding_all decide

/-- Claim C2 (amended): whenever `annual_return - effective_costs` is
strictly negative, the Riester calculator reports `net_return = 0.001` and
compounds with the floored rate `0.001`. -/
theorem riester_net_return_floor (c : RiesterCalculator)
    (h : c.annual_return - c.effective_costs < 0) :
    (RiesterCalculator.calculate c).net_return = 1 / 1000 ∧
      (RiesterCalculator.calculate c).gross_value =
        (compound_interest
          ((c.monthly_contribution * 12 + (c.basic_allowance + c.children_allowance)) / 12)
          (1 / 1000) c.years).1 :=
  riester_floor_eval c h

/-- Witness for C2 at a concrete configuration. -/
theorem riester_net_return_floor_witness :
    (RiesterCalculator.calculate cfgC2b).net_return = 1 / 1000 ∧
      (RiesterCalculator.calculate cfgC2b).gross_value =
        (compound_interest
          ((cfgC2b.monthly_contribution * 12
            + (cfgC2b.basic_allowance + cfgC2b.children_allowance)) / 12)
          (1 / 1000) cfgC2b.years).1 :=
  riester_net_return_floor cfgC2b (by norm_num [cfgC2b])

/-- Claim C3 is false as stated: for the Riester calculator the state
allowances are invested rather than netted against the saver's outlay, so
`total_paid ≠ gross_paid - state_allowances - tax_savings` whenever the
allowance is nonzero. -/
theorem riester_total_paid_cex :
    (RiesterCalculator.calculate cfgC3r).total_paid ≠
      (RiesterCalculator.calculate cfgC3r).gross_paid
        - (RiesterCalculator.calculate cfgC3r).state_allowances
        - (RiesterCalculator.calculate cfgC3r).tax_savings := by
  with_unfolding_all decide

/-- Claim C3 (amended): for the ETF, Basisrente and Privatrente calculators
`total_paid = gross_paid - state_allowances - tax_savings`; for the Riester
calculator `total_paid = gross_paid - tax_savings` (invested state
allowances are not netted). -/
theorem total_paid_netting :
    (∀ (c : ETFCalculator) (r : InvestmentResult), ETFCalculator.calculate c = Except.ok r →
        r.total_paid = r.gross_paid - r.state_allowances - r.tax_savings) ∧
      (∀ c : BasisrenteCalculator,
        (BasisrenteCalculator.calculate c).total_paid =
          (BasisrenteCalculator.calculate c).gross_paid
            - (BasisrenteCalculator.calculate c).state_allowances
            - (BasisrenteCalculator.calculate c).tax_savings) ∧
      (∀ c : PrivatrenteCalculator,
        (PrivatrenteCalculator.calculate c).total_paid =
          (PrivatrenteCalculator.calculate c).gross_paid
            - (PrivatrenteCalculator.calculate c).state_allowances
            - (PrivatrenteCalculator.calculate c).tax_savings) ∧
      (∀ c : RiesterCalculator,
        (RiesterCalculator.calculate c).total_paid =
          (RiesterCalculator.calculate c).gross_paid
            - (RiesterCalculator.calculate c).tax_savings) := by
  refine ⟨?_, ?_, ?_, ?_⟩
  · intro c r h
    simp only [ETFCalculator.calculate] at h
    split at h
    · cases h
      simp [etfFinish]
    · split at h
      · simp only [etfWithRebalancing] at h
        split at h
        · exact Except.noConfusion h
        · cases h
          simp
      · cases h
        simp [etfFinish]
  · intro c
    simp only [BasisrenteCalculator.calculate]
    split <;> simp [basisrenteFinish]
  · intro c
    simp only [PrivatrenteCalculator.calculate]
    simp
  · intro c
    simp only [RiesterCalculator.calculate]

/-- Witness for C3 at a concrete ETF configuration. -/
theorem total_paid_netting_witness :
    ∃ r : InvestmentResult, ETFCalculator.calculate cfgC3 = Except.ok r ∧
      r.total_paid = r.gross_paid - r.state_allowances - r.tax_savings := by
  have h := etf_plain_eq cfgC3 rfl rfl
  exact ⟨_, h, total_paid_netting.1 cfgC3 _ h⟩

/-- Claim C4 is false as stated: with `contribution_dynamics > 0` the
dynamics branch returns before the rebalancing check, so a configuration
with `rebalancing_count ≥ years` yields a numeric result, not an error. -/
theorem etf_rebalancing_error_bypass_cex :
    0 < cfgC4.contribution_dynamics ∧ cfgC4.years ≤ cfgC4.rebalancing_count ∧
      ∃ r : InvestmentResult, ETFCalculator.calculate cfgC4 = Except.ok r :=
  ⟨by norm_num [cfgC4], by norm_num [cfgC4],
    ⟨_, etf_dynamics_eq cfgC4 (by norm_num [cfgC4])⟩⟩

/-- Claim C4 (amended): for static contributions (`contribution_dynamics ≤ 0`)
and `rebalancing_count ≥ years ≥ 1`, `calculate` raises the configuration
error before any numeric result; with `contribution_dynamics > 0` the
rebalancing parameters are ignored and a numeric result is always produced. -/
theorem etf_rebalancing_error_guard :
    (∀ c : ETFCalculator, c.contribution_dynamics ≤ 0 → 1 ≤ c.years →
        c.years ≤ c.rebalancing_count →
        ETFCalculator.calculate c = Except.error rebalancing_error_msg) ∧
      (∀ c : ETFCalculator, 0 < c.contribution_dynamics →
        ∃ r : InvestmentResult, ETFCalculator.calculate c = Except.ok r) := by
  constructor
  · intro c hd hy hr
    have hd' : ¬ c.contribution_dynamics > 0 := not_lt.mpr hd
    have hr' : c.rebalancing_count > 0 := by omega
    simp only [ETFCalculator.calculate, if_neg hd', if_pos hr', etfWithRebalancing, if_pos hr]
  · intro c h
    exact ⟨_, etf_dynamics_eq c h⟩

/-- Witness for C4: the error is raised at a concrete static configuration,
and bypassed at the concrete dynamics configuration. -/
theorem etf_rebalancing_error_guard_witness :
    ETFCalculator.calculate cfgC4w = Except.error rebalancing_error_msg ∧
      ∃ r : InvestmentResult, ETFCalculator.calculate cfgC4 = Except.ok r :=
  ⟨etf_rebalancing_error_guard.1 cfgC4w (by norm_num [cfgC4w]) (by norm_num [cfgC4w])
      (by norm_num [cfgC4w]),
    etf_rebalancing_error_guard.2 cfgC4 (by norm_num [cfgC4])⟩

/-- Claim C10: with static contributions and `0 < rebalancing_count < years`
every rebalancing event year is strictly below the horizon, so the final
year is never a rebalancing year and the terminal sale always gets the full
annual tax allowance. -/
theorem rebalancing_years_bound (c : ETFCalculator) (hd : c.contribution_dynamics = 0)
    (h1 : 0 < c.rebalancing_count) (h2 : c.rebalancing_count < c.years) :
    (∀ e ∈ rebalancingYears c.years c.rebalancing_count, e < c.years) ∧
      c.years ∉ rebalancingYears c.years c.rebalancing_count ∧
      ∀ a : ℚ, etfTerminalAllowance c a = c.tax_allowance := by
  have key : ∀ e ∈ rebalancingYears c.years c.rebalancing_count, e < c.years := by
    intro e he
    rw [rebalancingYears, if_pos h1] at he
    simp only [List.mem_map, List.mem_range] at he
    obtain ⟨i, hi, rfl⟩ := he
    have h3 : c.years * (i + 1) < c.years * (c.rebalancing_count + 1) :=
      mul_lt_mul_of_pos_left (by omega) (by omega)
    have h4 : c.years * (i + 1) < (c.rebalancing_count + 1) * c.years := by
      calc c.years * (i + 1) < c.years * (c.rebalancing_count + 1) := h3
        _ = (c.rebalancing_count + 1) * c.years := Nat.mul_comm _ _
    exact Nat.div_lt_of_lt_mul h4
  have hnot : c.years ∉ rebalancingYears c.years c.rebalancing_count := fun hmem =>
    absurd (key _ hmem) (lt_irrefl _)
  refine ⟨key, hnot, fun a => ?_⟩
  simp only [etfTerminalAllowance, if_neg hnot]

/-- Witness for C10 at a concrete configuration. -/
theorem rebalancing_years_bound_witness :
    cfgC10.years ∉ rebalancingYears cfgC10.years cfgC10.rebalancing_count ∧
      etfTerminalAllowance cfgC10 3 = cfgC10.tax_allowance :=
  ⟨(rebalancing_years_bound cfgC10 rfl (by norm_num [cfgC10]) (by norm_num [cfgC10])).2.1,
    (rebalancing_years_bound cfgC10 rfl (by norm_num [cfgC10]) (by norm_num [cfgC10])).2.2 3⟩

/-- Claim C6 is false as stated: `fixed_monthly_pension` reports the
configured pension as `avg_monthly_withdrawal` even when the capital
depletes, so the reported average differs from
`total_withdrawals / (withdrawal_years * 12)`. -/
theorem fixed_pension_avg_cex :
    (fixed_monthly_pension 100 100 2 0).avg_monthly_withdrawal ≠
      (fixed_monthly_pension 100 100 2 0).total_withdrawals / ((2 : ℚ) * 12) := by
  with_unfolding_all decide

/-- Claim C6 (amended): `four_percent_rule` reports
`avg_monthly_withdrawal = total_withdrawals / (withdrawal_years * 12)`
(zero-payout years counted), while `fixed_monthly_pension` reports the
configured `monthly_pension` regardless of realized payouts. -/
theorem avg_monthly_withdrawal_formula (initial_capital : ℚ) (withdrawal_years : ℕ)
    (annual_return annual_inflation : ℚ) (adj : Bool) (ic2 monthly_pension ar2 : ℚ)
    (h : 1 ≤ withdrawal_years) :
    (four_percent_rule initial_capital withdrawal_years annual_return annual_inflation
          adj).avg_monthly_withdrawal =
        (four_percent_rule initial_capital withdrawal_years annual_return annual_inflation
          adj).total_withdrawals / ((withdrawal_years : ℚ) * 12) ∧
      (fixed_monthly_pension ic2 monthly_pension withdrawal_years ar2).avg_monthly_withdrawal =
        monthly_pension := by
  constructor
  · simp only [four_percent_rule]
    rw [div_div]
  · rfl

/-- Witness for C6 at concrete inputs. -/
theorem avg_monthly_withdrawal_formula_witness :
    (four_percent_rule 500000 30 (1 / 20) (1 / 50) true).avg_monthly_withdrawal =
        (four_percent_rule 500000 30 (1 / 20) (1 / 50) true).total_withdrawals /
          ((30 : ℚ) * 12) ∧
      (fixed_monthly_pension 1000 2000 30 (1 / 25)).avg_monthly_withdrawal = 2000 :=
  avg_monthly_withdrawal_formula 500000 30 (1 / 20) (1 / 50) true 1000 2000 (1 / 25)
    (by norm_num)

/-- Claim C7 is false as stated: at a withdrawal percentage of 100% the
remaining capital is exactly zero despite positive initial capital. -/
theorem dynamic_withdrawal_remaining_cex :
    (0 : ℚ) < 1000 ∧ (1 : ℕ) ≤ 1 ∧
      ¬ 0 < (dynamic_percentage_withdrawal 1000 1 1 (1 / 25)).remaining_capital := by
  refine ⟨by norm_num, le_refl 1, ?_⟩
  with_unfolding_all decide

/-- Claim C7 (amended): `dynamic_percentage_withdrawal` always reports
`capital_depleted_year = 0` and `success_rate = 1`; its remaining capital is
strictly positive for positive initial capital whenever additionally the
withdrawal percentage is below 1 and the annual return is above -1. -/
theorem dynamic_withdrawal_invariants (initial_capital withdrawal_percentage : ℚ)
    (withdrawal_years : ℕ) (annual_return : ℚ) :
    ((dynamic_percentage_withdrawal initial_capital withdrawal_percentage withdrawal_years
          annual_return).capital_depleted_year = 0 ∧
        (dynamic_percentage_withdrawal initial_capital withdrawal_percentage withdrawal_years
          annual_return).success_rate = 1) ∧
      (0 < initial_capital → 1 ≤ withdrawal_years → withdrawal_percentage < 1 →
        -1 < annual_return →
        0 < (dynamic_percentage_withdrawal initial_capital withdrawal_percentage
          withdrawal_years annual_return).remaining_capital) := by
  refine ⟨⟨rfl, rfl⟩, ?_⟩
  intro hc hy hp hr
  have key : ∀ (n year : ℕ) (cap tot : ℚ) (ys : List (ℕ × ℚ × ℚ)), 0 < cap →
      0 < (dpwAux withdrawal_percentage annual_return n year (cap, tot, ys)).1 := by
    intro n
    induction n with
    | zero => intro year cap tot ys h; exact h
    | succ k ih =>
      intro year cap tot ys h
      simp only [dpwAux]
      apply ih
      have e : cap - cap * withdrawal_percentage = cap * (1 - withdrawal_percentage) := by
        ring
      rw [e]
      exact mul_pos (mul_pos h (by linarith)) (by linarith)
  exact key withdrawal_years 1 initial_capital 0 [] hc

/-- Witness for C7 at concrete inputs. -/
theorem dynamic_withdrawal_invariants_witness :
    0 < (dynamic_percentage_withdrawal 1000 (1 / 25) 30 (1 / 25)).remaining_capital :=
  (dynamic_withdrawal_invariants 1000 (1 / 25) 30 (1 / 25)).2 (by norm_num) (by norm_num)
    (by norm_num) (by norm_num)

/-- A negative realized gain taxed at half rate with a positive retirement
tax rate yields a negative tax, raising the after-tax value. -/
lemma lump_tax_neg {fvg contract rate : ℚ} (h1 : fvg - contract < 0) (h2 : 0 < rate) :
    fvg < fvg - (fvg - contract) * (1 / 2) * rate := by nlinarith

/-- Claim C9 is false as stated: with a zero retirement tax rate the
lump-sum tax on a negative gain is zero, not negative, and then
`total_value = gross_value`. -/
theorem privatrente_lump_sum_zero_rate_cex :
    (PrivatrenteCalculator.calculate cfgC9).gross_value -
        (PrivatrenteCalculator.calculate cfgC9).gross_paid < 0 ∧
      ¬ (PrivatrenteCalculator.calculate cfgC9).gross_value <
          (PrivatrenteCalculator.calculate cfgC9).total_value := by
  with_unfolding_all decide

/-- Claim C9 (amended): for the lump-sum payout option the tax is
`0.5 * (gross_value - gross_paid) * tax_rate_retirement` with no floor at
zero, and whenever the gain is negative and the retirement tax rate is
positive, the tax is negative, so `total_value > gross_value`. -/
theorem privatrente_lump_sum_tax (c : PrivatrenteCalculator)
    (hp : c.payout_option = "lump_sum") :
    (PrivatrenteCalculator.calculate c).total_value =
        (PrivatrenteCalculator.calculate c).gross_value -
          ((PrivatrenteCalculator.calculate c).gross_value -
            (PrivatrenteCalculator.calculate c).gross_paid) * (1 / 2) * c.tax_rate_retirement ∧
      ((PrivatrenteCalculator.calculate c).gross_value -
          (PrivatrenteCalculator.calculate c).gross_paid < 0 → 0 < c.tax_rate_retirement →
        (PrivatrenteCalculator.calculate c).gross_value <
          (PrivatrenteCalculator.calculate c).total_value) := by
  constructor
  · simp only [PrivatrenteCalculator.calculate, if_pos hp]
  · simp only [PrivatrenteCalculator.calculate, if_pos hp]
    intro h1 h2
    exact lump_tax_neg h1 h2

/-- Witness for C9 at a concrete configuration with negative gain and a
positive retirement tax rate. -/
theorem privatrente_lump_sum_tax_witness :
    (PrivatrenteCalculator.calculate cfgC9w).gross_value -
        (PrivatrenteCalculator.calculate cfgC9w).gross_paid < 0 ∧
      (PrivatrenteCalculator.calculate cfgC9w).gross_value <
        (PrivatrenteCalculator.calculate cfgC9w).total_value :=
  ⟨by with_unfolding_all decide,
    (privatrente_lump_sum_tax cfgC9w rfl).2 (by with_unfolding_all decide) (by norm_num [cfgC9w])⟩

/-- The dynamics month loop adds `n` copies of the current contribution to
the running contribution total. -/
lemma dynMonths_snd (mr c : ℚ) : ∀ (n : ℕ) (cap tot : ℚ),
    (dynMonths mr c n (cap, tot)).2 = tot + n * c := by
  intro n
  induction n with
  | zero => intro cap tot; simp [dynMonths]
  | succ k ih =>
    intro cap tot
    simp only [dynMonths]
    rw [ih]
    push_cast
    ring

/-- The dynamics year loop appends exactly one year-end value per year. -/
lemma dynYears_ys (mr rate : ℚ) : ∀ (n : ℕ) (cap tot c : ℚ) (ys : List ℚ),
    ∃ l : List ℚ, (dynYears mr rate n (cap, ys, tot, c)).2.1 = ys ++ l ∧ l.length = n := by
  intro n
  induction n with
  | zero => intro cap tot c ys; exact ⟨[], by simp [dynYears], rfl⟩
  | succ k ih =>
    intro cap tot c ys
    simp only [dynYears]
    obtain ⟨l, hl, hlen⟩ := ih (dynMonths mr c 12 (cap, tot)).1 (dynMonths mr c 12 (cap, tot)).2
      (c * (1 + rate)) (ys ++ [(dynMonths mr c 12 (cap, tot)).1])
    refine ⟨(dynMonths mr c 12 (cap, tot)).1 :: l, ?_, by simp [hlen]⟩
    rw [hl, List.append_assoc]
    rfl

/-- The current monthly contribution after `n` simulated years is the
initial contribution scaled by `(1 + rate) ^ n`. -/
lemma dynYears_c (mr rate : ℚ) : ∀ (n : ℕ) (cap tot c : ℚ) (ys : List ℚ),
    (dynYears mr rate n (cap, ys, tot, c)).2.2.2 = c * (1 + rate) ^ n := by
  intro n
  induction n with
  | zero => intro cap tot c ys; simp [dynYears]
  | succ k ih =>
    intro cap tot c ys
    simp only [dynYears]
    rw [ih]
    ring

/-- Total contributions accumulated by the dynamics year loop: twelve
payments of the geometrically growing monthly contribution per year. -/
lemma dynYears_tot (mr rate : ℚ) : ∀ (n : ℕ) (cap tot c : ℚ) (ys : List ℚ),
    (dynYears mr rate n (cap, ys, tot, c)).2.2.1 =
      tot + ∑ j ∈ Finset.range n, 12 * (c * (1 + rate) ^ j) := by
  intro n
  induction n with
  | zero => intro cap tot c ys; simp [dynYears]
  | succ k ih =>
    intro cap tot c ys
    simp only [dynYears]
    rw [ih, dynMonths_snd]
    have hs : ∑ j ∈ Finset.range k, 12 * (c * (1 + rate) * (1 + rate) ^ j) =
        ∑ j ∈ Finset.range k, 12 * (c * (1 + rate) ^ (j + 1)) :=
      Finset.sum_congr rfl (fun j _ => by ring)
    rw [hs, Finset.sum_range_succ']
    push_cast
    ring

/-- Claim C8: `calculate_with_contribution_dynamics` returns `years + 1`
yearly values anchored at the initial investment; the monthly contribution
current in year `k + 1` is `initial * (1 + rate) ^ k`, the raise being
applied only after a year's 12 months; and the returned total contributions
equal the initial investment plus all monthly contributions paid. -/
theorem contribution_dynamics_contract (m rate : ℚ) (years : ℕ) (ret init : ℚ) :
    (calculate_with_contribution_dynamics m rate years ret init).2.1.length = years + 1 ∧
      (calculate_with_contribution_dynamics m rate years ret init).2.1.head? = some init ∧
      (∀ k : ℕ,
        (dynYears (ret / 12) rate k (init, [init], init, m)).2.2.2 = m * (1 + rate) ^ k) ∧
      (calculate_with_contribution_dynamics m rate years ret init).2.2 =
        init + ∑ y ∈ Finset.range years, 12 * (m * (1 + rate) ^ y) := by
  refine ⟨?_, ?_, ?_, ?_⟩
  · obtain ⟨l, hl, hlen⟩ := dynYears_ys (ret / 12) rate years init init m [init]
    show (dynYears (ret / 12) rate years (init, [init], init, m)).2.1.length = years + 1
    rw [hl]
    simp [hlen]
  · obtain ⟨l, hl, hlen⟩ := dynYears_ys (ret / 12) rate years init init m [init]
    show (dynYears (ret / 12) rate years (init, [init], init, m)).2.1.head? = some init
    rw [hl]
    rfl
  · intro k
    exact dynYears_c (ret / 12) rate k init init m [init]
  · show (dynYears (ret / 12) rate years (init, [init], init, m)).2.2.1 = _
    exact dynYears_tot (ret / 12) rate years init init m [init]

/-- Claim C5 is false as stated: two Riester runs that differ only in
`annual_return`, both inside the floored-rate region, report the same
`gross_value`, so a strictly larger return does not strictly increase it. -/
theorem gross_value_monotonicity_cex :
    cfgC5a.annual_return <
        ({ cfgC5a with annual_return := 1 / 100 } : RiesterCalculator).annual_return ∧
      (RiesterCalculator.calculate { cfgC5a with annual_return := 1 / 100 }).gross_value =
        (RiesterCalculator.calculate cfgC5a).gross_value := by
  constructor
  · norm_num [cfgC5a]
  · have hA := (riester_floor_eval cfgC5a (by norm_num [cfgC5a])).2
    have hB := (riester_floor_eval { cfgC5a with annual_return := 1 / 100 }
      (by norm_num [cfgC5a])).2
    rw [hA, hB]

/-- Claim C5 (amended): with a positive monthly contribution, at least one
year, a nonnegative lump sum, and the lower run's cost-adjusted net return
nonnegative (for the ETF, on the static no-rebalancing path; spread at most
1), strictly increasing `annual_return` strictly increases `gross_value`
for every product calculator. -/
theorem gross_value_monotonic :
    (∀ (c : ETFCalculator) (rB : ℚ), 0 < c.monthly_contribution → 1 ≤ c.years →
        c.contribution_dynamics = 0 → c.rebalancing_count = 0 → 0 ≤ c.initial_investment →
        c.spread ≤ 1 → 0 ≤ c.annual_return - c.ter - c.spread → c.annual_return < rB →
        ∃ r r2 : InvestmentResult,
          ETFCalculator.calculate c = Except.ok r ∧
          ETFCalculator.calculate { c with annual_return := rB } = Except.ok r2 ∧
          r.gross_value < r2.gross_value) ∧
      (∀ (c : BasisrenteCalculator) (rB : ℚ), 0 < c.monthly_contribution → 1 ≤ c.years →
        c.contribution_dynamics = 0 → 0 ≤ c.initial_investment →
        0 ≤ c.annual_return - c.effective_costs → c.annual_return < rB →
        (BasisrenteCalculator.calculate c).gross_value <
          (BasisrenteCalculator.calculate { c with annual_return := rB }).gross_value) ∧
      (∀ (c : RiesterCalculator) (rB : ℚ), 0 < c.monthly_contribution → 1 ≤ c.years →
        0 ≤ c.basic_allowance → 0 ≤ c.children_allowance →
        0 ≤ c.annual_return - c.effective_costs → c.annual_return < rB →
        (RiesterCalculator.calculate c).gross_value <
          (RiesterCalculator.calculate { c with annual_return := rB }).gross_value) ∧
      (∀ (c : PrivatrenteCalculator) (rB : ℚ), 0 < c.monthly_contribution → 1 ≤ c.years →
        0 ≤ c.initial_investment → 0 ≤ c.annual_return - c.effective_costs →
        c.annual_return < rB →
        (PrivatrenteCalculator.calculate c).gross_value <
          (PrivatrenteCalculator.calculate { c with annual_return := rB }).gross_value) := by
  refine ⟨?_, ?_, ?_, ?_⟩
  · intro c rB hm hy hdyn hreb hinit hspread hnet hlt
    have hdyn2 : ({ c with annual_return := rB } : ETFCalculator).contribution_dynamics = 0 :=
      hdyn
    have hreb2 : ({ c with annual_return := rB } : ETFCalculator).rebalancing_count = 0 := hreb
    refine ⟨_, _, etf_plain_eq c hdyn hreb, etf_plain_eq _ hdyn2 hreb2, ?_⟩
    simp only [etfFinish]
    apply sub_lt_sub_right
    apply sub_lt_sub_right
    have hnetlt : c.annual_return - c.ter - c.spread < rB - c.ter - c.spread := by linarith
    by_cases hi : c.initial_investment > 0
    · rw [if_pos hi, if_pos hi]
      refine add_lt_add_of_lt_of_le
        (compound_interest_lt c.monthly_contribution hm hnet hnetlt hy) ?_
      exact initTerm_le (mul_nonneg hinit (by linarith)) (by linarith) (by linarith) c.years
    · rw [if_neg hi, if_neg hi]
      exact compound_interest_lt c.monthly_contribution hm hnet hnetlt hy
  · intro c rB hm hy hdyn hinit hnet hlt
    have hd1 : ¬ c.contribution_dynamics > 0 := by rw [hdyn]; exact lt_irrefl 0
    have hnetlt : c.annual_return - c.effective_costs < rB - c.effective_costs := by linarith
    simp only [BasisrenteCalculator.calculate, if_neg hd1, basisrenteFinish]
    by_cases hi : c.initial_investment > 0
    · rw [if_pos hi, if_pos hi]
      refine add_lt_add_of_lt_of_le
        (compound_interest_lt c.monthly_contribution hm hnet hnetlt hy) ?_
      exact initTerm_le hinit (by linarith) (by linarith) c.years
    · rw [if_neg hi, if_neg hi]
      exact compound_interest_lt c.monthly_contribution hm hnet hnetlt hy
  · intro c rB hm hy hba hca hnet hlt
    have hA : ¬ (c.annual_return - c.effective_costs < 0) := not_lt.mpr hnet
    have hB : ¬ (rB - c.effective_costs < 0) := not_lt.mpr (by linarith)
    simp only [RiesterCalculator.calculate, if_neg hA, if_neg hB]
    have hmcwa :
        0 < (c.monthly_contribution * 12 + (c.basic_allowance + c.children_allowance)) / 12 :=
      div_pos (by linarith) (by norm_num)
    exact compound_interest_lt _ hmcwa hnet (by linarith) hy
  · intro c rB hm hy hinit hnet hlt
    have hnetlt : c.annual_return - c.effective_costs < rB - c.effective_costs := by linarith
    simp only [PrivatrenteCalculator.calculate]
    by_cases hi : c.initial_investment > 0
    · rw [if_pos hi, if_pos hi]
      refine add_lt_add_of_lt_of_le
        (compound_interest_lt c.monthly_contribution hm hnet hnetlt hy) ?_
      exact initTerm_le hinit (by linarith) (by linarith) c.years
    · rw [if_neg hi, if_neg hi]
      exact compound_interest_lt c.monthly_contribution hm hnet hnetlt hy

/-- Witness for C5 instantiating all four calculators. -/
theorem gross_value_monotonic_witness :
    (∃ r r2 : InvestmentResult,
        ETFCalculator.calculate cfgC5etf = Except.ok r ∧
        ETFCalculator.calculate { cfgC5etf with annual_return := 1 } = Except.ok r2 ∧
        r.gross_value < r2.gross_value) ∧
      (BasisrenteCalculator.calculate cfgC5bas).gross_value <
        (BasisrenteCalculator.calculate { cfgC5bas with annual_return := 1 }).gross_value ∧
      (RiesterCalculator.calculate cfgC5rie).gross_value <
        (RiesterCalculator.calculate { cfgC5rie with annual_return := 3 / 100 }).gross_value ∧
      (PrivatrenteCalculator.calculate cfgC5priv).gross_value <
        (PrivatrenteCalculator.calculate { cfgC5priv with annual_return := 1 }).gross_value :=
  ⟨gross_value_monotonic.1 cfgC5etf 1 (by norm_num [cfgC5etf]) (by norm_num [cfgC5etf]) rfl rfl
      (by norm_num [cfgC5etf]) (by norm_num [cfgC5etf]) (by norm_num [cfgC5etf])
      (by norm_num [cfgC5etf]),
    gross_value_monotonic.2.1 cfgC5bas 1 (by norm_num [cfgC5bas]) (by norm_num [cfgC5bas]) rfl
      (by norm_num [cfgC5bas]) (by norm_num [cfgC5bas]) (by norm_num [cfgC5bas]),
    gross_value_monotonic.2.2.1 cfgC5rie (3 / 100) (by norm_num [cfgC5rie])
      (by norm_num [cfgC5rie]) (by norm_num [cfgC5rie]) (by norm_num [cfgC5rie])
      (by norm_num [cfgC5rie]) (by norm_num [cfgC5rie]),
    gross_value_monotonic.2.2.2 cfgC5priv 1 (by norm_num [cfgC5priv]) (by norm_num [cfgC5priv])
      (by norm_num [cfgC5priv]) (by norm_num [cfgC5priv]) (by norm_num [cfgC5priv])⟩
